import Mathlib

/-!
Verification of the FLUX.2 structured-prompt client (`flux2.py`).

This file gives a shallow embedding of the pure logic of the script:
the hex-color namer, the structured-prompt compiler, the dimension
validator, the MIME-type selection of the image encoder, and the
result-polling loop (with HTTP responses abstracted into a stream of
response values).  Machine integers are modelled as `Int` (Python
integers are unbounded); Python's `round` on `value / 16` is modelled
exactly as round-half-to-even on the rational `value / 16`, which
agrees with the floating-point computation for all `|value| < 2 ^ 53`
(where division by 16 is exact in binary floating point).
-/

set_option maxRecDepth 100000

namespace Flux2

/-- Models Python `str.lstrip(c)` for a single strip character: removes every
leading occurrence of `c`. -/
def pyLstrip (c : Char) (s : String) : String :=
  ⟨s.data.dropWhile (fun x => x == c)⟩

/-- Models the Python slice `s[a:b]` for `0 ≤ a ≤ b` (indices clamp to the
string length, never raising). -/
def pySlice (s : String) (a b : Nat) : String :=
  ⟨(s.data.drop a).take (b - a)⟩

/-- ASCII whitespace accepted (and stripped) by Python `int`. -/
def isPySpace (c : Char) : Bool :=
  c == ' ' || c == '\t' || c == '\n' || c == '\r' || c == '\x0b' || c == '\x0c'

/-- Value of a single hexadecimal digit, if the character is one. -/
def hexDigitVal (c : Char) : Option Nat :=
  if '0' ≤ c ∧ c ≤ '9' then some (c.toNat - '0'.toNat)
  else if 'a' ≤ c ∧ c ≤ 'f' then some (c.toNat - 'a'.toNat + 10)
  else if 'A' ≤ c ∧ c ≤ 'F' then some (c.toNat - 'A'.toNat + 10)
  else none

/-- Accumulating base-16 evaluation of a digit string; `none` as soon as a
character is not a hexadecimal digit. -/
def hexDigitsVal : List Char → Nat → Option Nat
  | [], acc => some acc
  | c :: rest, acc =>
    match hexDigitVal c with
    | some v => hexDigitsVal rest (16 * acc + v)
    | none => none

/-- Models Python `int(s, 16)`: strip surrounding whitespace, accept one
optional sign, then a non-empty run of hexadecimal digits; anything else
raises `ValueError`, modelled as `none`.  (Python additionally accepts `0x`
prefixes and `_` digit separators, both of which need at least three
characters in a valid literal; this program only ever parses slices of at
most two characters, on which this model is exact.) -/
def pyIntHex (s : String) : Option Int :=
  let cs := ((s.data.dropWhile isPySpace).reverse.dropWhile isPySpace).reverse
  match cs with
  | [] => none
  | '+' :: rest =>
    if rest.isEmpty then none else (hexDigitsVal rest 0).map (fun n => (n : Int))
  | '-' :: rest =>
    if rest.isEmpty then none else (hexDigitsVal rest 0).map (fun n => -(n : Int))
  | _ => (hexDigitsVal cs 0).map (fun n => (n : Int))

/-- The cascade of channel comparisons in `hex_to_color_name` after a
successful parse; `stripped` is the input after `lstrip('#')`, used by the
final fallback `f"({hex_color})"`. -/
def color_category (r g b : Int) (stripped : String) : String :=
  if r > 200 ∧ g > 200 ∧ b > 200 then "white/cream"
  else if r < 50 ∧ g < 50 ∧ b < 50 then "black/dark"
  else if r > g ∧ r > b then
    (if r > 200 then "bright red/coral" else "red/burgundy")
  else if g > r ∧ g > b then
    (if g > 200 then "bright green/lime" else "green/forest")
  else if b > r ∧ b > g then
    (if b > 200 then "bright blue/sky" else "blue/navy")
  else if r > 180 ∧ g > 150 ∧ b < 100 then "golden/amber"
  else if r > 150 ∧ g > 100 ∧ b < 80 then "brown/tan"
  else if r > 200 ∧ g > 150 ∧ b > 150 then "pink/rose"
  else if r > 100 ∧ g > 100 ∧ b > 100 then "gray"
  else "(" ++ stripped ++ ")"

/-- Models `hex_to_color_name`: strip leading `#`, parse the three
2-character channel slices with `int(·, 16)`; if any parse raises, return
the stripped string, otherwise classify the channels. -/
def hex_to_color_name (hex_color : String) : String :=
  let stripped := pyLstrip '#' hex_color
  match pyIntHex (pySlice stripped 0 2), pyIntHex (pySlice stripped 2 4),
      pyIntHex (pySlice stripped 4 6) with
  | some r, some g, some b => color_category r g b stripped
  | _, _, _ => stripped

/-- A `subjects` entry of the structured prompt; each key optional. -/
structure Subject where
  description : Option String
  position : Option String
  action : Option String
deriving DecidableEq

/-- The `camera` sub-dictionary of the structured prompt. -/
structure Camera where
  angle : Option String
  lens : Option String
  depth_of_field : Option String
deriving DecidableEq

/-- A `text_elements` entry of the structured prompt. -/
structure TextElement where
  content : Option String
  style : Option String
  position : Option String
  color : Option String
deriving DecidableEq

/-- The structured prompt dictionary.  `none` models an absent key; for the
sequence-valued keys an absent key and an empty sequence are identified
(both are falsy in Python and behave identically in the script); an absent
`camera` key and an empty camera dictionary are likewise both modelled by a
camera with no populated sub-field being falsy. -/
structure StructuredPrompt where
  scene : Option String
  subjects : List Subject
  style : Option String
  color_palette : List String
  lighting : Option String
  mood : Option String
  background : Option String
  composition : Option String
  camera : Option Camera
  text_elements : List TextElement
deriving DecidableEq

/-- Python truthiness of an optional string value: present and non-empty. -/
def truthyStr (o : Option String) : Bool :=
  match o with
  | none => false
  | some s => !(s == "")

/-- Python truthiness of the `camera` value: key present and dictionary
non-empty (at least one of its three sub-keys present). -/
def camera_truthy (o : Option Camera) : Bool :=
  match o with
  | none => false
  | some c => c.angle.isSome || c.lens.isSome || c.depth_of_field.isSome

/-- The `parts` list built for one subject (keys tested for presence only,
exactly as the source tests `"description" in subject` etc.). -/
def subject_parts (s : Subject) : List String :=
  let parts : List String := []
  let parts := match s.description with
    | some d => parts ++ [d]
    | none => parts
  let parts := match s.position with
    | some p => parts ++ ["positioned " ++ p]
    | none => parts
  let parts := match s.action with
    | some a => parts ++ [a]
    | none => parts
  parts

/-- The `subject_descriptions` list: subjects enumerated from 1, each with a
non-empty `parts` list rendered as `Subject N: <comma-joined parts>`. -/
def subject_descriptions (subjects : List Subject) : List String :=
  subjects.enum.filterMap (fun p =>
    let parts := subject_parts p.2
    if parts.isEmpty then none
    else some ("Subject " ++ toString (p.1 + 1) ++ ": " ++ String.intercalate ", " parts))

/-- The `cam_parts` list of the camera section. -/
def camera_parts (c : Camera) : List String :=
  let parts : List String := []
  let parts := match c.angle with
    | some a => parts ++ ["Camera angle: " ++ a]
    | none => parts
  let parts := match c.lens with
    | some l => parts ++ ["Lens: " ++ l]
    | none => parts
  let parts := match c.depth_of_field with
    | some d => parts ++ ["Depth of field: " ++ d]
    | none => parts
  parts

/-- The `text_desc` fragment list for one text element. -/
def text_element_desc (t : TextElement) : List String :=
  let parts : List String := []
  let parts := match t.content with
    | some c => parts ++ ["Text reading \"" ++ c ++ "\""]
    | none => parts
  let parts := match t.style with
    | some s => parts ++ ["in " ++ s]
    | none => parts
  let parts := match t.position with
    | some p => parts ++ ["located " ++ p]
    | none => parts
  let parts := match t.color with
    | some c => parts ++ ["in " ++ hex_to_color_name c ++ " color"]
    | none => parts
  parts

/-- The `text_parts` list: text elements with at least one fragment,
space-joined. -/
def text_parts (ts : List TextElement) : List String :=
  ts.filterMap (fun t =>
    let d := text_element_desc t
    if d.isEmpty then none else some (String.intercalate " " d))

/-- Rendering of one palette entry inside the color-palette section. -/
def palette_entry (c : String) : String :=
  c ++ " (" ++ hex_to_color_name c ++ ")"

/-- The `sections` list of `build_prompt_from_structure`, mirroring the
source's sequence of conditional appends (each Python
`if cond: sections.append(x)` becomes one conditional append; the nested
inner emptiness tests of the subjects, camera and text-elements blocks are
kept nested). -/
def build_sections (sp : StructuredPrompt) : List String :=
  let sections : List String := []
  let sections := if truthyStr sp.scene then
    sections ++ ["Scene: " ++ sp.scene.getD ""] else sections
  let sections := if !sp.subjects.isEmpty then
    (if !(subject_descriptions sp.subjects).isEmpty then
      sections ++ [String.intercalate "\n" (subject_descriptions sp.subjects)]
     else sections)
    else sections
  let sections := if truthyStr sp.style then
    sections ++ ["Style: " ++ sp.style.getD ""] else sections
  let sections := if !sp.color_palette.isEmpty then
    sections ++ ["Color palette: " ++ String.intercalate ", " (sp.color_palette.map palette_entry)]
    else sections
  let sections := if truthyStr sp.lighting then
    sections ++ ["Lighting: " ++ sp.lighting.getD ""] else sections
  let sections := if truthyStr sp.mood then
    sections ++ ["Mood and atmosphere: " ++ sp.mood.getD ""] else sections
  let sections := if truthyStr sp.background then
    sections ++ ["Background: " ++ sp.background.getD ""] else sections
  let sections := if truthyStr sp.composition then
    sections ++ ["Composition: " ++ sp.composition.getD ""] else sections
  let sections := if camera_truthy sp.camera then
    (if !(camera_parts (sp.camera.getD ⟨none, none, none⟩)).isEmpty then
      sections ++ [String.intercalate " | " (camera_parts (sp.camera.getD ⟨none, none, none⟩))]
     else sections)
    else sections
  let sections := if !sp.text_elements.isEmpty then
    (if !(text_parts sp.text_elements).isEmpty then
      sections ++ ["Text elements: " ++ String.intercalate "; " (text_parts sp.text_elements)]
     else sections)
    else sections
  sections

/-- Models `build_prompt_from_structure`: the accumulated sections joined by
blank lines. -/
def build_prompt_from_structure (sp : StructuredPrompt) : String :=
  String.intercalate "\n\n" (build_sections sp)

/-- An optional section: `some x` when its guard holds. -/
def optIf (b : Bool) (x : String) : Option String :=
  if b then some x else none

/-- The section list claimed by the specification, written from the spec's
words: the ten labeled sections in the fixed order scene, subjects, style,
color palette, lighting, mood, background, composition, camera,
text elements, each present exactly when its source field is non-empty. -/
def claim_section_list (sp : StructuredPrompt) : List (Option String) :=
  [optIf (truthyStr sp.scene) ("Scene: " ++ sp.scene.getD ""),
   optIf (!sp.subjects.isEmpty) (String.intercalate "\n" (subject_descriptions sp.subjects)),
   optIf (truthyStr sp.style) ("Style: " ++ sp.style.getD ""),
   optIf (!sp.color_palette.isEmpty)
     ("Color palette: " ++ String.intercalate ", " (sp.color_palette.map palette_entry)),
   optIf (truthyStr sp.lighting) ("Lighting: " ++ sp.lighting.getD ""),
   optIf (truthyStr sp.mood) ("Mood and atmosphere: " ++ sp.mood.getD ""),
   optIf (truthyStr sp.background) ("Background: " ++ sp.background.getD ""),
   optIf (truthyStr sp.composition) ("Composition: " ++ sp.composition.getD ""),
   optIf (camera_truthy sp.camera)
     (String.intercalate " | " (camera_parts (sp.camera.getD ⟨none, none, none⟩))),
   optIf (!sp.text_elements.isEmpty)
     ("Text elements: " ++ String.intercalate "; " (text_parts sp.text_elements))]

/-- The section list with the presence conditions the code actually
enforces: the subjects, camera and text-elements sections additionally
require at least one rendered entry (at least one populated sub-field). -/
def amended_section_list (sp : StructuredPrompt) : List (Option String) :=
  [optIf (truthyStr sp.scene) ("Scene: " ++ sp.scene.getD ""),
   optIf (!sp.subjects.isEmpty && !(subject_descriptions sp.subjects).isEmpty)
     (String.intercalate "\n" (subject_descriptions sp.subjects)),
   optIf (truthyStr sp.style) ("Style: " ++ sp.style.getD ""),
   optIf (!sp.color_palette.isEmpty)
     ("Color palette: " ++ String.intercalate ", " (sp.color_palette.map palette_entry)),
   optIf (truthyStr sp.lighting) ("Lighting: " ++ sp.lighting.getD ""),
   optIf (truthyStr sp.mood) ("Mood and atmosphere: " ++ sp.mood.getD ""),
   optIf (truthyStr sp.background) ("Background: " ++ sp.background.getD ""),
   optIf (truthyStr sp.composition) ("Composition: " ++ sp.composition.getD ""),
   optIf (camera_truthy sp.camera &&
       !(camera_parts (sp.camera.getD ⟨none, none, none⟩)).isEmpty)
     (String.intercalate " | " (camera_parts (sp.camera.getD ⟨none, none, none⟩))),
   optIf (!sp.text_elements.isEmpty && !(text_parts sp.text_elements).isEmpty)
     ("Text elements: " ++ String.intercalate "; " (text_parts sp.text_elements))]

/-- A structured prompt with a scene and a single subject all of whose keys
are absent: its `subjects` field is non-empty yet no subjects section is
emitted. -/
def sp_counter : StructuredPrompt :=
  { scene := some "X", subjects := [⟨none, none, none⟩], style := none,
    color_palette := [], lighting := none, mood := none, background := none,
    composition := none, camera := none, text_elements := [] }

/-- The all-absent structured prompt. -/
def sp_empty : StructuredPrompt :=
  { scene := none, subjects := [], style := none, color_palette := [],
    lighting := none, mood := none, background := none, composition := none,
    camera := none, text_elements := [] }

/-- Minimum accepted dimension, in pixels. -/
def MIN_DIMENSION : Int := 64

/-- Maximum accepted pixel count (4 megapixels). -/
def MAX_MEGAPIXELS : Int := 4000000

/-- Models `round_to_multiple_of_16`, i.e. Python `round(value / 16) * 16`.
Python `round` performs round-half-to-even; `value / 16` is computed in
binary floating point, where division by 16 is exact for every
`|value| < 2 ^ 53`, so on that range the rounding acts on the exact
rational `value / 16`, which is what the integer arithmetic below computes
(`/` and `%` are Euclidean, agreeing with Python floor division for the
positive divisor 16). -/
def round_to_multiple_of_16 (value : Int) : Int :=
  let k := value / 16
  let r := value % 16
  (if r < 8 then k else if r > 8 then k + 1 else if k % 2 = 0 then k else k + 1) * 16

/-- One entry of the `errors` list of `validate_dimensions`; the formatted
message strings of the source are abstracted into constructors carrying the
same data. -/
inductive DimError where
  | widthBelowMin (width : Int)
  | heightBelowMin (height : Int)
  | tooManyPixels (total_pixels : Int)
deriving DecidableEq

/-- One entry of the `warnings` list of `validate_dimensions`, abstracted
like `DimError`. -/
inductive DimWarning where
  | widthAdjusted (old new : Int)
  | heightAdjusted (old new : Int)
  | widthSetToMin
  | heightSetToMin
deriving DecidableEq

/-- Models `validate_dimensions`: collect errors against the original
dimensions, then round each dimension to a multiple of 16 (with a warning),
then clamp each adjusted dimension up to the minimum (with a warning);
returns `(adjusted_width, adjusted_height, errors, warnings)`. -/
def validate_dimensions (width height : Int) :
    Int × Int × List DimError × List DimWarning :=
  let errors : List DimError := []
  let errors := if width < MIN_DIMENSION then
    errors ++ [DimError.widthBelowMin width] else errors
  let errors := if height < MIN_DIMENSION then
    errors ++ [DimError.heightBelowMin height] else errors
  let total_pixels := width * height
  let errors := if total_pixels > MAX_MEGAPIXELS then
    errors ++ [DimError.tooManyPixels total_pixels] else errors
  let warnings : List DimWarning := []
  let adjusted_width := if width % 16 ≠ 0 then round_to_multiple_of_16 width else width
  let warnings := if width % 16 ≠ 0 then
    warnings ++ [DimWarning.widthAdjusted width (round_to_multiple_of_16 width)] else warnings
  let adjusted_height := if height % 16 ≠ 0 then round_to_multiple_of_16 height else height
  let warnings := if height % 16 ≠ 0 then
    warnings ++ [DimWarning.heightAdjusted height (round_to_multiple_of_16 height)] else warnings
  let warnings := if adjusted_width < MIN_DIMENSION then
    warnings ++ [DimWarning.widthSetToMin] else warnings
  let adjusted_width := if adjusted_width < MIN_DIMENSION then MIN_DIMENSION else adjusted_width
  let warnings := if adjusted_height < MIN_DIMENSION then
    warnings ++ [DimWarning.heightSetToMin] else warnings
  let adjusted_height := if adjusted_height < MIN_DIMENSION then MIN_DIMENSION else adjusted_height
  (adjusted_width, adjusted_height, errors, warnings)

/-- The extension-to-MIME table of `encode_image_to_base64`. -/
def mime_types : List (String × String) :=
  [(".jpg", "image/jpeg"), (".jpeg", "image/jpeg"), (".png", "image/png"),
   (".webp", "image/webp"), (".gif", "image/gif")]

/-- Models Python `str.lower()` (character-wise lowering; identical to
Python on ASCII extensions such as the ones in `mime_types`). -/
def pyLower (s : String) : String := ⟨s.data.map Char.toLower⟩

/-- Models `encode_image_to_base64` with the file system abstracted away:
`suffix` is `image_path.suffix` and `image_data` stands for the
base64-encoded file contents; the function only chooses the MIME type from
the lower-cased extension (default `image/jpeg`) and assembles the data
URL. -/
def encode_image_to_base64 (suffix : String) (image_data : String) : String :=
  let extension := pyLower suffix
  let mime_type := (mime_types.lookup extension).getD "image/jpeg"
  "data:" ++ mime_type ++ ";base64," ++ image_data

/-- Maximum number of polling attempts. -/
def MAX_POLL_ATTEMPTS : Nat := 120

/-- One poll response, modelling what `poll_for_result` observes of an HTTP
response: its status code and, for the decoded JSON body, the value of
`result.get("status")` (`none` when the key is missing).  The response
value itself stands for the decoded result payload that a successful poll
returns. -/
structure PollResponse where
  status_code : Nat
  status : Option String
deriving DecidableEq

/-- Observable outcome of `poll_for_result`: returning a result, calling
`sys.exit(1)` on a server-reported error, or calling `sys.exit(1)` after
exhausting the attempt budget. -/
inductive PollOutcome where
  | ready (r : PollResponse)
  | errorExit
  | exhausted
deriving DecidableEq

/-- The polling loop over the stream `f` of successive poll responses,
starting at response index `i` with the given number of attempts left:
a non-200 response, a status in `{Pending, Processing, Queued}` and any
unrecognized status all consume one attempt and retry; status `Ready`
returns the response; status `Error` exits. -/
def poll_loop (f : Nat → PollResponse) : Nat → Nat → PollOutcome
  | _, 0 => PollOutcome.exhausted
  | i, fuel + 1 =>
    if (f i).status_code ≠ 200 then poll_loop f (i + 1) fuel
    else if (f i).status = some "Ready" then PollOutcome.ready (f i)
    else if (f i).status = some "Error" then PollOutcome.errorExit
    else poll_loop f (i + 1) fuel

/-- Models `poll_for_result` on a stream of poll responses. -/
def poll_for_result (f : Nat → PollResponse) : PollOutcome :=
  poll_loop f 0 MAX_POLL_ATTEMPTS

/-- The response at hand is an HTTP 200 carrying the given task status. -/
def okStatus (r : PollResponse) (s : String) : Prop :=
  r.status_code = 200 ∧ r.status = some s

instance (r : PollResponse) (s : String) : Decidable (okStatus r s) :=
  inferInstanceAs (Decidable (_ ∧ _))

/-- An optional string field that is absent or empty. -/
def blankStr (o : Option String) : Prop :=
  o = none ∨ o = some ""

/-- A camera field that is absent or an empty dictionary. -/
def blankCam (o : Option Camera) : Prop :=
  o = none ∨ o = some ⟨none, none, none⟩

/-- The end-to-end polling scenario of the specification: two `Processing`
responses followed by `Ready` responses. -/
def scenario_responses : Nat → PollResponse :=
  fun i => if i < 2 then ⟨200, some "Processing"⟩ else ⟨200, some "Ready"⟩

/-- Claim C5: for every pair of dimensions already satisfying all the
constraints (both at least 64, product at most 4,000,000, both multiples of
16), `validate_dimensions` returns them unchanged with empty error and
warning lists. -/
theorem validate_dimensions_valid_unchanged (width height : Int)
    (h1 : 64 ≤ width) (h2 : 64 ≤ height) (h3 : width * height ≤ 4000000)
    (h4 : width % 16 = 0) (h5 : height % 16 = 0) :
    validate_dimensions width height = (width, height, [], []) := by
  have g1 : ¬ width < (64 : Int) := not_lt.mpr h1
  have g2 : ¬ height < (64 : Int) := not_lt.mpr h2
  have g3 : ¬ width * height > (4000000 : Int) := not_lt.mpr h3
  simp [validate_dimensions, MIN_DIMENSION, MAX_MEGAPIXELS, g1, g2, g3, h4, h5]

/-- Witness for C5 at the concrete preset 1024 × 1024. -/
theorem validate_dimensions_valid_unchanged_witness :
    ((64 : Int) ≤ 1024 ∧ (1024 : Int) * 1024 ≤ 4000000 ∧ (1024 : Int) % 16 = 0) ∧
    validate_dimensions 1024 1024 = (1024, 1024, [], []) :=
  ⟨⟨by decide, by decide, by decide⟩,
   validate_dimensions_valid_unchanged 1024 1024 (by decide) (by decide) (by decide)
     (by decide) (by decide)⟩

/-- Claim C6: `validate_dimensions 1920 1081` keeps the width, rounds the
height up to 1088, reports no error, and reports exactly the one warning
for the height adjustment. -/
theorem validate_dimensions_1920_1081 :
    validate_dimensions 1920 1081
      = (1920, 1088, [], [DimWarning.heightAdjusted 1081 1088]) := by decide

/-- Claim C1 (code bug): at width 50016 and height 73 the validator reports
no error (the original product 50016 × 73 = 3,651,168 is within the cap),
yet rounds the height up to 80, so the adjusted dimensions it returns
multiply to 4,001,280 > 4,000,000, violating the documented 4-megapixel
invariant. -/
theorem validate_dimensions_exceeds_cap_after_rounding :
    validate_dimensions 50016 73 = (50016, 80, [], [DimWarning.heightAdjusted 73 80])
    ∧ (50016 : Int) * 80 > 4000000 := by decide

/-- Claim C8: on exact halves (`value ≡ 8 (mod 16)`) the rounding is
half-to-even: the result is a multiple of 32 (an even multiple of 16) at
distance exactly 8, so ties do not always round upward. -/
theorem round_to_multiple_of_16_ties_to_even (value : Int) (h : value % 16 = 8) :
    round_to_multiple_of_16 value % 32 = 0 ∧
    (round_to_multiple_of_16 value = value - 8 ∨
     round_to_multiple_of_16 value = value + 8) := by
  simp only [round_to_multiple_of_16]
  rw [h]
  norm_num
  by_cases hk : (2 : Int) ∣ value / 16
  · rw [if_pos hk]; omega
  · rw [if_neg hk]; omega

/-- Witness for C8 at the tie value 40 (which rounds down to 32), together
with the claim's two examples 24 → 32 and 40 → 32. -/
theorem round_to_multiple_of_16_ties_to_even_witness :
    ((40 : Int) % 16 = 8 ∧ round_to_multiple_of_16 40 % 32 = 0 ∧
      (round_to_multiple_of_16 40 = 40 - 8 ∨ round_to_multiple_of_16 40 = 40 + 8)) ∧
    round_to_multiple_of_16 24 = 32 ∧ round_to_multiple_of_16 40 = 32 :=
  ⟨⟨by decide, round_to_multiple_of_16_ties_to_even 40 (by decide)⟩, by decide, by decide⟩

/-- A parenthesized string never equals the literal `golden/amber`. -/
theorem paren_ne_golden (s : String) : "(" ++ s ++ ")" ≠ "golden/amber" := by
  intro he
  have h2 : ("(" ++ s ++ ")").data = "golden/amber".data := by rw [he]
  rw [String.data_append, String.data_append] at h2
  have h3 : "(".data = ['('] := rfl
  rw [h3] at h2
  simp at h2

/-- A parenthesized string never equals the literal `brown/tan`. -/
theorem paren_ne_brown (s : String) : "(" ++ s ++ ")" ≠ "brown/tan" := by
  intro he
  have h2 : ("(" ++ s ++ ")").data = "brown/tan".data := by rw [he]
  rw [String.data_append, String.data_append] at h2
  have h3 : "(".data = ['('] := rfl
  rw [h3] at h2
  simp at h2

/-- Claim C2 (counterexample): on the malformed hex string `#gggggg` the
function returns the `#`-stripped string `gggggg`, not its input
unchanged. -/
theorem hex_to_color_name_not_input_unchanged :
    hex_to_color_name "#gggggg" ≠ "#gggggg" := by decide

/-- Claim C2 (amended): whenever base-16 parsing of one of the three
2-character channel slices of the `#`-stripped input fails,
`hex_to_color_name` returns the input with every leading `#` removed (so a
malformed input starting with `#` is not returned unchanged; and a
wrong-length input whose first six characters still parse, such as
`#FFFFFF00`, is classified instead of returned). -/
theorem hex_to_color_name_malformed_stripped (s : String)
    (h : pyIntHex (pySlice (pyLstrip '#' s) 0 2) = none ∨
         pyIntHex (pySlice (pyLstrip '#' s) 2 4) = none ∨
         pyIntHex (pySlice (pyLstrip '#' s) 4 6) = none) :
    hex_to_color_name s = pyLstrip '#' s := by
  rcases h with h1 | h1 | h1
  · simp [hex_to_color_name, h1]
  · cases h0 : pyIntHex (pySlice (pyLstrip '#' s) 0 2) with
    | none => simp [hex_to_color_name, h0]
    | some r => simp [hex_to_color_name, h0, h1]
  · cases h0 : pyIntHex (pySlice (pyLstrip '#' s) 0 2) with
    | none => simp [hex_to_color_name, h0]
    | some r =>
      cases h0g : pyIntHex (pySlice (pyLstrip '#' s) 2 4) with
      | none => simp [hex_to_color_name, h0, h0g]
      | some g => simp [hex_to_color_name, h0, h0g, h1]

/-- Witness for amended C2 at the malformed input `#gggggg`. -/
theorem hex_to_color_name_malformed_stripped_witness :
    pyIntHex (pySlice (pyLstrip '#' "#gggggg") 0 2) = none ∧
    hex_to_color_name "#gggggg" = pyLstrip '#' "#gggggg" :=
  ⟨by decide, hex_to_color_name_malformed_stripped "#gggggg" (Or.inl (by decide))⟩

/-- Claim C9: if a parsed color is named `golden/amber` or `brown/tan`,
its red and green channels are equal — any strictly greatest channel is
captured by the earlier red/green/blue rules, so these branches are
reachable only on red-green ties. -/
theorem hex_to_color_name_warm_implies_rg_eq (s : String) (r g b : Int)
    (hr : pyIntHex (pySlice (pyLstrip '#' s) 0 2) = some r)
    (hg : pyIntHex (pySlice (pyLstrip '#' s) 2 4) = some g)
    (hb : pyIntHex (pySlice (pyLstrip '#' s) 4 6) = some b)
    (hname : hex_to_color_name s = "golden/amber" ∨
             hex_to_color_name s = "brown/tan") :
    r = g := by
  have hred : hex_to_color_name s = color_category r g b (pyLstrip '#' s) := by
    simp [hex_to_color_name, hr, hg, hb]
  rw [hred] at hname
  unfold color_category at hname
  split_ifs at hname
  all_goals
    first
      | omega
      | (rcases hname with h | h <;> exact absurd h (by decide))
      | (rcases hname with h | h
         · exact absurd h (paren_ne_golden _)
         · exact absurd h (paren_ne_brown _))

/-- Witness for C9 at `#C8C800` (r = g = 200, b = 0, named golden/amber). -/
theorem hex_to_color_name_warm_implies_rg_eq_witness :
    hex_to_color_name "#C8C800" = "golden/amber" ∧ (200 : Int) = 200 :=
  ⟨by decide,
   hex_to_color_name_warm_implies_rg_eq "#C8C800" 200 200 0 (by decide) (by decide)
     (by decide) (Or.inl (by decide))⟩

/-- Claim C7: a structured prompt with every field absent or empty compiles
to the empty string. -/
theorem build_prompt_all_blank_empty (sp : StructuredPrompt)
    (h1 : blankStr sp.scene) (h2 : sp.subjects = []) (h3 : blankStr sp.style)
    (h4 : sp.color_palette = []) (h5 : blankStr sp.lighting)
    (h6 : blankStr sp.mood) (h7 : blankStr sp.background)
    (h8 : blankStr sp.composition) (h9 : blankCam sp.camera)
    (h10 : sp.text_elements = []) :
    build_prompt_from_structure sp = "" := by
  have t1 : truthyStr sp.scene = false := by
    rcases h1 with h | h <;> simp [truthyStr, h]
  have t3 : truthyStr sp.style = false := by
    rcases h3 with h | h <;> simp [truthyStr, h]
  have t5 : truthyStr sp.lighting = false := by
    rcases h5 with h | h <;> simp [truthyStr, h]
  have t6 : truthyStr sp.mood = false := by
    rcases h6 with h | h <;> simp [truthyStr, h]
  have t7 : truthyStr sp.background = false := by
    rcases h7 with h | h <;> simp [truthyStr, h]
  have t8 : truthyStr sp.composition = false := by
    rcases h8 with h | h <;> simp [truthyStr, h]
  have t9 : camera_truthy sp.camera = false := by
    rcases h9 with h | h <;> simp [camera_truthy, h]
  simp [build_prompt_from_structure, build_sections, t1, t3, t5, t6, t7, t8, t9,
    h2, h4, h10, String.intercalate]

/-- Witness for C7 at the all-absent structured prompt. -/
theorem build_prompt_all_blank_empty_witness :
    build_prompt_from_structure sp_empty = "" :=
  build_prompt_all_blank_empty sp_empty (Or.inl rfl) rfl (Or.inl rfl) rfl
    (Or.inl rfl) (Or.inl rfl) (Or.inl rfl) (Or.inl rfl) (Or.inl rfl) rfl

/-- Conditional append of one element, as performed for each section. -/
theorem if_append_eq_toList (b : Bool) (x : String) (l : List String) :
    (if b then l ++ [x] else l) = l ++ (optIf b x).toList := by
  cases b <;> simp [optIf]

/-- The nested conditional append of the subjects, camera and text-elements
sections collapses to a single conjunctive guard. -/
theorem if_nested_append_eq_toList (b1 b2 : Bool) (x : String) (l : List String) :
    (if b1 then (if b2 then l ++ [x] else l) else l)
      = l ++ (optIf (b1 && b2) x).toList := by
  cases b1 <;> cases b2 <;> simp [optIf]

/-- Filtering a cons of optional sections. -/
theorem filterMap_id_cons_toList (o : Option String) (l : List (Option String)) :
    (o :: l).filterMap id = o.toList ++ l.filterMap id := by
  cases o <;> simp

/-- Claim C3 (counterexample): on a prompt whose `subjects` field is the
non-empty list containing one subject with no populated key, the compiled
prompt omits the subjects section, so it differs from the string the claim
prescribes (which includes a section for every non-empty field). -/
theorem build_prompt_claim_counterexample :
    build_prompt_from_structure sp_counter
      ≠ String.intercalate "\n\n" ((claim_section_list sp_counter).filterMap id) := by
  decide

/-- Claim C3 (amended): the compiled prompt is exactly the labeled sections
in the fixed order scene, subjects, style, color palette, lighting, mood,
background, composition, camera, text elements, joined by blank lines, a
section being present iff its source field is non-empty — except that the
subjects, camera and text-elements sections additionally require at least
one entry with at least one populated sub-field. -/
theorem build_prompt_sections_ordered (sp : StructuredPrompt) :
    build_prompt_from_structure sp
      = String.intercalate "\n\n" ((amended_section_list sp).filterMap id) := by
  unfold build_prompt_from_structure
  congr 1
  simp only [build_sections, amended_section_list]
  rw [if_nested_append_eq_toList, if_nested_append_eq_toList,
    if_nested_append_eq_toList]
  simp only [if_append_eq_toList]
  simp only [filterMap_id_cons_toList, List.filterMap_nil]
  simp [List.append_assoc]

/-- Retrying at position `i` shifts the success condition of the polling
loop by one, provided the response at `i` is neither a 200/Ready nor a
200/Error. -/
theorem poll_shift (f : Nat → PollResponse) (fuel i : Nat)
    (hnr : ¬ okStatus (f i) "Ready") (hne : ¬ okStatus (f i) "Error") :
    (∃ j, j < fuel + 1 ∧ okStatus (f (i + j)) "Ready" ∧
      ∀ k, k < j → ¬ okStatus (f (i + k)) "Error") ↔
    (∃ j, j < fuel ∧ okStatus (f (i + 1 + j)) "Ready" ∧
      ∀ k, k < j → ¬ okStatus (f (i + 1 + k)) "Error") := by
  constructor
  · rintro ⟨j, hj, hjr, hjerr⟩
    cases j with
    | zero => rw [Nat.add_zero] at hjr; exact absurd hjr hnr
    | succ j =>
      refine ⟨j, by omega, ?_, ?_⟩
      · rw [show i + 1 + j = i + (j + 1) by omega]
        exact hjr
      · intro k hk
        rw [show i + 1 + k = i + (k + 1) by omega]
        exact hjerr (k + 1) (by omega)
  · rintro ⟨j, hj, hjr, hjerr⟩
    refine ⟨j + 1, by omega, ?_, ?_⟩
    · rw [show i + (j + 1) = i + 1 + j by omega]
      exact hjr
    · intro k hk
      cases k with
      | zero => rw [Nat.add_zero]; exact hne
      | succ k =>
        rw [show i + (k + 1) = i + 1 + k by omega]
        exact hjerr k (by omega)

/-- The polling loop started at position `i` with `fuel` attempts left
returns a result exactly when a 200/Ready response occurs among the next
`fuel` responses with no earlier 200/Error response. -/
theorem poll_loop_ready_iff (f : Nat → PollResponse) :
    ∀ (fuel i : Nat),
      (∃ r, poll_loop f i fuel = PollOutcome.ready r) ↔
      (∃ j, j < fuel ∧ okStatus (f (i + j)) "Ready" ∧
        ∀ k, k < j → ¬ okStatus (f (i + k)) "Error")
  | 0, i => by
    constructor
    · rintro ⟨r, hr⟩
      simp [poll_loop] at hr
    · rintro ⟨j, hj, _⟩
      exact absurd hj (Nat.not_lt_zero j)
  | fuel + 1, i => by
    by_cases h200 : (f i).status_code = 200
    · by_cases hready : (f i).status = some "Ready"
      · constructor
        · intro _
          exact ⟨0, Nat.succ_pos _, ⟨h200, hready⟩,
            fun k hk => absurd hk (Nat.not_lt_zero k)⟩
        · intro _
          refine ⟨f i, ?_⟩
          simp [poll_loop, h200, hready]
      · by_cases herror : (f i).status = some "Error"
        · constructor
          · rintro ⟨r, hr⟩
            simp [poll_loop, h200, hready, herror] at hr
          · rintro ⟨j, hj, hjr, hjerr⟩
            cases j with
            | zero =>
              rw [Nat.add_zero] at hjr
              exact absurd hjr.2 hready
            | succ j =>
              exact (hjerr 0 (Nat.succ_pos j)
                (by rw [Nat.add_zero]; exact ⟨h200, herror⟩)).elim
        · have hstep : poll_loop f i (fuel + 1) = poll_loop f (i + 1) fuel := by
            simp [poll_loop, h200, hready, herror]
          rw [hstep, poll_loop_ready_iff f fuel (i + 1)]
          exact (poll_shift f fuel i (fun hc => hready hc.2) (fun hc => herror hc.2)).symm
    · have hstep : poll_loop f i (fuel + 1) = poll_loop f (i + 1) fuel := by
        simp [poll_loop, h200]
      rw [hstep, poll_loop_ready_iff f fuel (i + 1)]
      exact (poll_shift f fuel i (fun hc => h200 hc.1) (fun hc => h200 hc.1)).symm

/-- Claim C4: `poll_for_result` returns a decoded response exactly when,
within the first 120 responses, a 200 response with status `Ready` occurs
before any 200 response with status `Error`; every other response (status
in Pending/Processing/Queued, any unrecognized status, or a non-200
response) consumes one attempt and retries; otherwise the process
terminates with a non-zero status, either on the server-reported error
(`errorExit`) or after exhausting the 120-attempt budget (`exhausted`) —
both model `sys.exit(1)`. -/
theorem poll_for_result_ready_iff (f : Nat → PollResponse) :
    ((∃ r, poll_for_result f = PollOutcome.ready r) ↔
      (∃ i, i < 120 ∧ okStatus (f i) "Ready" ∧
        ∀ j, j < i → ¬ okStatus (f j) "Error")) ∧
    ((poll_for_result f = PollOutcome.errorExit ∨
      poll_for_result f = PollOutcome.exhausted) ↔
      ¬ (∃ i, i < 120 ∧ okStatus (f i) "Ready" ∧
        ∀ j, j < i → ¬ okStatus (f j) "Error")) := by
  have hmain : (∃ r, poll_for_result f = PollOutcome.ready r) ↔
      (∃ i, i < 120 ∧ okStatus (f i) "Ready" ∧
        ∀ j, j < i → ¬ okStatus (f j) "Error") := by
    have h := poll_loop_ready_iff f 120 0
    simpa [poll_for_result, MAX_POLL_ATTEMPTS] using h
  refine ⟨hmain, ?_⟩
  cases ho : poll_for_result f with
  | ready r =>
    have hB := hmain.mp ⟨r, ho⟩
    simp [hB]
  | errorExit =>
    have hnB : ¬ (∃ i, i < 120 ∧ okStatus (f i) "Ready" ∧
        ∀ j, j < i → ¬ okStatus (f j) "Error") := by
      intro hB
      rcases hmain.mpr hB with ⟨r, hr⟩
      rw [ho] at hr
      cases hr
    simp [hnB]
  | exhausted =>
    have hnB : ¬ (∃ i, i < 120 ∧ okStatus (f i) "Ready" ∧
        ∀ j, j < i → ¬ okStatus (f j) "Error") := by
      intro hB
      rcases hmain.mpr hB with ⟨r, hr⟩
      rw [ho] at hr
      cases hr
    simp [hnB]

/-- Witness for C4 at the specification's end-to-end scenario: with two
`Processing` responses followed by `Ready`, polling returns a result. -/
theorem poll_for_result_ready_iff_witness :
    ∃ r, poll_for_result scenario_responses = PollOutcome.ready r :=
  (poll_for_result_ready_iff scenario_responses).1.mpr
    ⟨2, by decide, ⟨by decide, by decide⟩, by decide⟩

/-- Claim C10: the data URL produced by `encode_image_to_base64` carries
the MIME type mapped from the lower-cased extension for the five known
extensions, and `image/jpeg` for every other extension. -/
theorem encode_image_to_base64_mime (s d : String) :
    (pyLower s ∉ [".jpg", ".jpeg", ".png", ".webp", ".gif"] →
      encode_image_to_base64 s d = "data:image/jpeg;base64," ++ d) ∧
    (∀ m, (pyLower s, m) ∈ mime_types →
      encode_image_to_base64 s d = "data:" ++ m ++ ";base64," ++ d) := by
  constructor
  · intro h
    simp only [List.mem_cons, List.not_mem_nil, or_false, not_or] at h
    obtain ⟨e1, e2, e3, e4, e5⟩ := h
    simp [encode_image_to_base64, mime_types, List.lookup,
      beq_eq_false_iff_ne.mpr e1, beq_eq_false_iff_ne.mpr e2,
      beq_eq_false_iff_ne.mpr e3, beq_eq_false_iff_ne.mpr e4,
      beq_eq_false_iff_ne.mpr e5]
  · intro m hm
    simp only [mime_types, List.mem_cons, List.not_mem_nil, or_false,
      Prod.mk.injEq] at hm
    rcases hm with ⟨h1, h2⟩ | ⟨h1, h2⟩ | ⟨h1, h2⟩ | ⟨h1, h2⟩ | ⟨h1, h2⟩ <;>
      subst h2 <;>
      simp [encode_image_to_base64, mime_types, List.lookup, h1]

/-- Witness for C10 at the unmapped extension `.bmp` and the mapped
extension `.PNG`. -/
theorem encode_image_to_base64_mime_witness :
    encode_image_to_base64 ".bmp" "QUJD" = "data:image/jpeg;base64," ++ "QUJD" ∧
    encode_image_to_base64 ".PNG" "QUJD" = "data:" ++ "image/png" ++ ";base64," ++ "QUJD" :=
  ⟨(encode_image_to_base64_mime ".bmp" "QUJD").1 (by decide),
   (encode_image_to_base64_mime ".PNG" "QUJD").2 "image/png" (by decide)⟩

/-!
Concrete sanity checks of the embedding against hand-traced runs of the
source.
-/

example : hex_to_color_name "#000080" = "blue/navy" := by decide

example : hex_to_color_name "#gggggg" = "gggggg" := by decide

example : hex_to_color_name "#C8C800" = "golden/amber" := by decide

example : hex_to_color_name "#FFFFFF00" = "white/cream" := by decide

example : hex_to_color_name "#404040" = "(404040)" := by decide

example : hex_to_color_name "#8B4513" = "red/burgundy" := by decide

example : pyIntHex "-f" = some (-15) := by decide

example : pyIntHex " f" = some 15 := by decide

example : pyIntHex "0x" = none := by decide

example : pyIntHex "" = none := by decide

example : build_prompt_from_structure sp_empty = "" := by decide

example : build_prompt_from_structure sp_counter = "Scene: X" := by decide

example : String.intercalate "\n\n" ((claim_section_list sp_counter).filterMap id)
    = "Scene: X\n\n" := by decide

example : build_prompt_from_structure
    { scene := some "S", subjects := [⟨some "d", some "left", none⟩],
      style := none, color_palette := ["#000080"], lighting := none,
      mood := some "calm", background := none, composition := none,
      camera := some ⟨some "low", none, some "deep"⟩,
      text_elements := [⟨some "HI", none, none, some "#000080"⟩] }
    = "Scene: S\n\nSubject 1: d, positioned left\n\nColor palette: #000080 (blue/navy)\n\nMood and atmosphere: calm\n\nCamera angle: low | Depth of field: deep\n\nText elements: Text reading \"HI\" in blue/navy color" := by
  decide

example : round_to_multiple_of_16 24 = 32 := by decide

example : round_to_multiple_of_16 40 = 32 := by decide

example : round_to_multiple_of_16 1081 = 1088 := by decide

example : round_to_multiple_of_16 (-24) = -32 := by decide

example : validate_dimensions 1920 1081
    = (1920, 1088, [], [DimWarning.heightAdjusted 1081 1088]) := by decide

example : validate_dimensions 50016 73
    = (50016, 80, [], [DimWarning.heightAdjusted 73 80]) := by decide

example : validate_dimensions 3000 3000
    = (3008, 3008, [DimError.tooManyPixels 9000000],
       [DimWarning.widthAdjusted 3000 3008, DimWarning.heightAdjusted 3000 3008]) := by decide

example : encode_image_to_base64 ".PNG" "QUJD" = "data:image/png;base64,QUJD" := by decide

example : encode_image_to_base64 ".bmp" "QUJD" = "data:image/jpeg;base64,QUJD" := by decide

example : poll_for_result
    (fun i => if i < 2 then ⟨200, some "Processing"⟩ else ⟨200, some "Ready"⟩)
    = PollOutcome.ready ⟨200, some "Ready"⟩ := by decide

example : poll_for_result (fun _ => ⟨200, some "Error"⟩) = PollOutcome.errorExit := by decide

example : poll_for_result (fun _ => ⟨200, some "Queued"⟩) = PollOutcome.exhausted := by decide

example : poll_for_result (fun _ => ⟨500, some "Ready"⟩) = PollOutcome.exhausted := by decide

end Flux2
